import Mathlib

/-!
Verification of the `csv_2_plot.py` plotting pipeline
(`plot_power_data` in `example/logger/csv_2_plot.py`).

The script is embedded shallowly:

* numeric measurement values are rationals (`ℚ`);
* a timestamp is an instant (`Int`, an epoch offset that `tz_convert`
  never changes) paired with the display timezone it is currently
  rendered in (`String`);
* the loaded table (`DataFrame`) keeps the timestamp column separate
  from the named numeric columns, exactly as the script only ever reads
  `df['timestamp']` and the `{source}_{measurement}` columns;
* ambient effects (the file system, `gettz()`, the success of
  `plt.savefig`) are an explicit environment `Env`;
* Python exceptions that escape the function (`KeyError` from the
  fixed-table lookups, `IndexError` from `iloc` on an empty frame)
  are the `.error` side of an `Except`; `print` output is collected in
  `RunResult.messages`; whether `savefig` wrote the output file is
  `RunResult.saved`.
-/

namespace Csv2Plot

/-- A Python exception escaping `plot_power_data`: `KeyError` from a
dict lookup (`color_map[s]`, `plot_configs[plot_type]`, `steps[-1]`
would be `IndexError`) or `IndexError` from `.iloc` on an empty frame. -/
inductive PyError where
  | keyError (k : String)
  | indexError
deriving DecidableEq

/-- The loaded table: the parsed `timestamp` column (instant paired with
the timezone it is displayed in) and the named numeric columns. -/
structure DataFrame where
  timestamps : List (Int × String)
  cols : List (String × List ℚ)
deriving DecidableEq

/-- The column names of the table (`df.columns` for the value columns). -/
def DataFrame.columns (df : DataFrame) : List String :=
  df.cols.map Prod.fst

/-- `df[c]`: the numeric data of column `c` (empty if absent; only used
after a `c in df.columns` check, as in the script). -/
def DataFrame.getCol (df : DataFrame) (c : String) : List ℚ :=
  (((df.cols.find? (fun p => p.1 == c)).map Prod.snd).getD [])

/-- `df['timestamp'].dt.tz_convert(tz)` assigned back to the column:
every row's instant is kept, its display timezone becomes `tz`. -/
def tz_convert (tz : String) (df : DataFrame) : DataFrame :=
  { df with timestamps := df.timestamps.map (fun t => (t.1, tz)) }

/-- Outcome of `pd.read_csv(csv_path, parse_dates=['timestamp'])`. -/
inductive LoadResult where
  | fileNotFound
  | loadError (msg : String)
  | ok (raw : DataFrame)

/-- Ambient state of one run: the resolved system timezone returned by
`gettz()`, what reading the input file yields, and whether
`plt.savefig(output_path)` succeeds (with the message of its exception
when it does not). -/
structure Env where
  localTz : String
  file : LoadResult
  saveOk : Bool
  saveErr : String

/-- `scale_config`: the y-axis step ladder of each measurement type. -/
def scale_config (pt : String) : Option (List ℚ) :=
  if pt = "power" then some [5, 20, 50, 160]
  else if pt = "voltage" then some [5, 10, 15, 25]
  else if pt = "current" then some [1, 5/2, 5, 10]
  else none

/-- One entry of `plot_configs`: panel title, y-axis label, and the
column names `f'{s}_{measurement}'` derived from the requested sources. -/
structure PlotConfig where
  title : String
  ylabel : String
  cols : List String
deriving DecidableEq

/-- `plot_configs[pt]`, with `cols` built from the caller's sources. -/
def plot_configs (sources : List String) (pt : String) : Option PlotConfig :=
  if pt = "power" then
    some ⟨"Power Consumption", "Power (W)", sources.map (fun s => s ++ "_power")⟩
  else if pt = "voltage" then
    some ⟨"Voltage", "Voltage (V)", sources.map (fun s => s ++ "_voltage")⟩
  else if pt = "current" then
    some ⟨"Current", "Current (A)", sources.map (fun s => s ++ "_current")⟩
  else none

/-- Python's `s.upper()` on a source name (character-wise uppercase). -/
def upper (s : String) : String := ⟨s.data.map Char.toUpper⟩

/-- `color_map[s]` as a partial lookup (a missing key is `none`,
which the pipeline turns into a `KeyError`). -/
def color_map (s : String) : Option String :=
  if s = "vin" then some "red"
  else if s = "main" then some "green"
  else if s = "usb" then some "blue"
  else none

/-- `channel_colors = [color_map[s] for s in sources]`: resolves each
source's color, raising `KeyError` at the first unknown source. -/
def lookupColors : List String → Except PyError (List String)
  | [] => .ok []
  | s :: rest =>
    match color_map s with
    | none => .error (.keyError s)
    | some c => (lookupColors rest).map (fun cs => c :: cs)

/-- One line drawn by `ax.plot(df['timestamp'], df[col], label=..,
color=..)`: its column, legend label, color, x-data (the converted
timestamp column) and y-data. -/
structure Line where
  col : String
  label : String
  color : String
  xs : List (Int × String)
  ys : List ℚ
deriving DecidableEq

/-- The line `ax.plot` draws for item `(col, label, color)`. -/
def mkLine (df : DataFrame) (t : String × String × String) : Line :=
  ⟨t.1, t.2.1, t.2.2, df.timestamps, df.getCol t.1⟩

/-- The warning printed for a requested column absent from the table. -/
def warnMsg (col : String) : String :=
  "Warning: Column '" ++ col ++ "' not found in CSV. Skipping."

/-- `df[col].max()`: `none` models pandas' NaN on an empty column, which
the `>` comparison in the script then treats as not exceeding. -/
def colMax (l : List ℚ) : Option ℚ := l.max?

/-- `if max_col_value > max_data_value: max_data_value = max_col_value`. -/
def maxStep (acc : ℚ) (m : Option ℚ) : ℚ :=
  match m with
  | some v => if acc < v then v else acc
  | none => acc

/-- Pairs `config['cols']`, `channel_labels` and `channel_colors`
positionally, as the loop body's indexing `[j]` does. -/
def zipItems : List String → List String → List String →
    List (String × String × String)
  | c :: cs, l :: ls, k :: ks => (c, l, k) :: zipItems cs ls ks
  | _, _, _ => []

/-- The per-panel loop over `config['cols']`: draws each present column
as a line and folds the running `max_data_value` (starting from `acc`),
and prints a warning for each absent column. Returns
(lines, max_data_value, warnings). -/
def panelLoop (df : DataFrame) :
    List (String × String × String) → ℚ → List Line × ℚ × List String
  | [], acc => ([], acc, [])
  | t :: rest, acc =>
    if df.columns.contains t.1 then
      let acc' := maxStep acc (colMax (df.getCol t.1))
      let r := panelLoop df rest acc'
      (mkLine df t :: r.1, r.2.1, r.2.2)
    else
      let r := panelLoop df rest acc
      (r.1, r.2.1, warnMsg t.1 :: r.2.2)

/-- `next((step for step in steps if step >= max_data_value), steps[-1])`:
the first step `>= m`, defaulting to the last step; `none` models the
`IndexError` of `steps[-1]` on an empty ladder (the default argument is
evaluated eagerly in Python). -/
def nextStep (steps : List ℚ) (m : ℚ) : Option ℚ :=
  match steps.getLast? with
  | none => none
  | some dflt => some ((steps.find? (fun s => decide (m ≤ s))).getD dflt)

/-- One rendered panel: which `plot_type` of the loop iteration it
belongs to, its title and y-label, the drawn lines, and the y-limits set
by `ax.set_ylim` (`ylim_top = none` when the type has no step ladder and
the library's auto-scaling is left in place). -/
structure Panel where
  plot_type : String
  title : String
  ylabel : String
  lines : List Line
  ylim_bottom : ℚ
  ylim_top : Option ℚ
deriving DecidableEq

/-- The dynamic y-axis scaling step of one panel: if the type has a
ladder, pick the bound (`IndexError` from `steps[-1]` on an empty
ladder); a type without a ladder keeps the library's auto-scaling
(`none`). -/
def panelTop (pt : String) (maxv : ℚ) : Except PyError (Option ℚ) :=
  match scale_config pt with
  | some steps =>
    match nextStep steps maxv with
    | some t => .ok (some t)
    | none => .error .indexError
  | none => .ok none

/-- Assembles one panel from its loop result and chosen top bound
(`ax.set_ylim(bottom=0)` is unconditional). -/
def mkPanel (pt : String) (cfg : PlotConfig)
    (r : List Line × ℚ × List String) (t : Option ℚ) : Panel :=
  { plot_type := pt, title := cfg.title, ylabel := cfg.ylabel,
    lines := r.1, ylim_bottom := 0, ylim_top := t }

/-- The `for i, plot_type in enumerate(plot_types)` loop: builds one
panel per requested type (raising `KeyError` on an unknown type from
`plot_configs[plot_type]`), collecting the printed warnings in order. -/
def buildPanels (df : DataFrame) (sources labels colors : List String) :
    List String → Except PyError (List Panel × List String)
  | [] => .ok ([], [])
  | pt :: rest =>
    match plot_configs sources pt with
    | none => .error (.keyError pt)
    | some cfg =>
      let r := panelLoop df (zipItems cfg.cols labels colors) 0
      match panelTop pt r.2.1 with
      | .error e => .error e
      | .ok t =>
        match buildPanels df sources labels colors rest with
        | .error e => .error e
        | .ok pw => .ok (mkPanel pt cfg r t :: pw.1, r.2.2 ++ pw.2)

/-- Observable outcome of a run of `plot_power_data` that did not raise:
everything printed (in order), the converted frame the panels read
(`none` when the run returned before loading or converting), the panels,
the timezone passed to `mdates.DateFormatter` and used for the x-axis
label (`none` when the run returned before formatting), and whether
`plt.savefig` wrote the output file. -/
structure RunResult where
  messages : List String
  df : Option DataFrame
  panels : List Panel
  formatTz : Option String
  saved : Bool
deriving DecidableEq

/-- The whole of `plot_power_data(csv_path, output_path, plot_types,
sources)`, step for step:
load and convert (early `return` on either load failure), build the
label and color tables (a `KeyError` here escapes), the
`num_plots == 0` early `return`, the panel loop, then the x-axis
formatting that reads `df['timestamp'].iloc[-1]` and `.iloc[0]`
(raising `IndexError` on an empty frame), and finally `savefig`. -/
def plot_power_data (env : Env) (csv_path output_path : String)
    (plot_types sources : List String) : Except PyError RunResult :=
  match env.file with
  | .fileNotFound =>
    .ok { messages := ["Error: The file '" ++ csv_path ++ "' was not found."],
          df := none, panels := [], formatTz := none, saved := false }
  | .loadError e =>
    .ok { messages := ["An error occurred while reading the CSV file: " ++ e],
          df := none, panels := [], formatTz := none, saved := false }
  | .ok raw =>
    let df := tz_convert env.localTz raw
    let msgs0 :=
      ["Successfully loaded " ++ toString raw.timestamps.length ++
         " records from '" ++ csv_path ++ "'",
       "Timestamp converted to local timezone: " ++ env.localTz]
    let labels := sources.map upper
    match lookupColors sources with
    | .error e => .error e
    | .ok colors =>
      if plot_types.length = 0 then
        .ok { messages := msgs0 ++ ["No plot types selected. Exiting."],
              df := some df, panels := [], formatTz := none, saved := false }
      else
        match buildPanels df sources labels colors plot_types with
        | .error e => .error e
        | .ok pw =>
          match df.timestamps.getLast?, df.timestamps.head? with
          | none, _ => .error .indexError
          | _, none => .error .indexError
          | some _, some _ =>
            .ok { messages := msgs0 ++ pw.2 ++
                    [if env.saveOk then
                       "Plot successfully saved to '" ++ output_path ++ "'"
                     else
                       "An error occurred while saving the plot: " ++ env.saveErr],
                  df := some df, panels := pw.1,
                  formatTz := some env.localTz, saved := env.saveOk }

/-- The running `max_data_value` after folding a list of column names
(starting from `a`); only used to state the loop characterization. -/
def presentMax (df : DataFrame) (a : ℚ) : List String → ℚ
  | [] => a
  | c :: cs => presentMax df (maxStep a (colMax (df.getCol c))) cs

/-- A two-row log holding only the `vin_power` column (the concrete
scenario of the spec), used for concrete checks. -/
def raw2 : DataFrame :=
  { timestamps := [(0, "UTC"), (10, "UTC")],
    cols := [("vin_power", [3, 4])] }

/-- An environment in which `raw2` loads, the system timezone resolves
to `KST` and saving succeeds. -/
def env2 : Env :=
  { localTz := "KST", file := .ok raw2, saveOk := true, saveErr := "" }

/-- The power panel produced by `plot_power_data env2 "in.csv" "out.png"
["power"] ["vin"]`, spelled out. -/
def pLit : Panel :=
  { plot_type := "power", title := "Power Consumption",
    ylabel := "Power (W)",
    lines := [{ col := "vin_power", label := "VIN", color := "red",
                xs := [(0, "KST"), (10, "KST")], ys := [3, 4] }],
    ylim_bottom := 0, ylim_top := some 5 }

/-- The run result of `plot_power_data env2 "in.csv" "out.png" ["power"]
["vin"]`, spelled out. -/
def rLit : RunResult :=
  { messages := ["Successfully loaded 2 records from 'in.csv'",
                 "Timestamp converted to local timezone: KST",
                 "Plot successfully saved to 'out.png'"],
    df := some { timestamps := [(0, "KST"), (10, "KST")],
                 cols := [("vin_power", [3, 4])] },
    panels := [pLit],
    formatTz := some "KST", saved := true }

/-- A zero-row log (header only). -/
def rawEmpty : DataFrame := { timestamps := [], cols := [] }

/-- An environment in which the zero-row log loads. -/
def envEmpty : Env :=
  { localTz := "KST", file := .ok rawEmpty, saveOk := true, saveErr := "" }

/-- An environment in which the input path does not exist. -/
def envNF : Env :=
  { localTz := "KST", file := .fileNotFound, saveOk := true, saveErr := "" }

/-- An environment in which the input file exists but fails to parse. -/
def envBad : Env :=
  { localTz := "KST", file := .loadError "bad csv", saveOk := true, saveErr := "" }

/-! ### Helper lemmas -/

/-- In a strictly ascending list every element is at most the last one. -/
theorem sorted_le_getLast (l : List ℚ) (h : l ≠ []) (hs : l.Sorted (· < ·)) :
    ∀ x ∈ l, x ≤ l.getLast h := by
  induction l with
  | nil => exact absurd rfl h
  | cons a t ih =>
    intro x hx
    rcases List.mem_cons.mp hx with rfl | hxt
    · cases t with
      | nil => simp [List.getLast]
      | cons b u =>
        have hmem : (b :: u).getLast (by simp) ∈ b :: u :=
          List.getLast_mem (by simp)
        have hlt : x < (b :: u).getLast (by simp) :=
          (List.sorted_cons.mp hs).1 _ hmem
        rw [List.getLast_cons (by simp)]
        exact le_of_lt hlt
    · cases t with
      | nil => cases hxt
      | cons b u =>
        rw [List.getLast_cons (by simp)]
        exact ih (by simp) (List.sorted_cons.mp hs).2 x hxt

/-- `find?` returns the element at index `k` when the predicate fails
strictly before `k` and holds at `k`. -/
theorem find?_eq_some_get (p : ℚ → Bool) :
    ∀ (l : List ℚ) (k : ℕ) (hk : k < l.length),
      (∀ j (hj : j < k), p (l.get ⟨j, hj.trans hk⟩) = false) →
      p (l.get ⟨k, hk⟩) = true →
      l.find? p = some (l.get ⟨k, hk⟩)
  | a :: t, 0, _, _, hp => by
    rw [List.find?_cons_of_pos _ (by simpa using hp)]
    simp
  | a :: t, k + 1, hk, hb, hp => by
    have ha : p a = false := by simpa using hb 0 (Nat.succ_pos k)
    rw [List.find?_cons_of_neg _ (by simp [ha])]
    have hrest := find?_eq_some_get p t k (Nat.lt_of_succ_lt_succ hk)
      (fun j hj => by simpa using hb (j + 1) (Nat.succ_lt_succ hj))
      (by simpa using hp)
    simpa using hrest

/-- The chosen bound is always one of the ladder's steps. -/
theorem nextStep_mem (steps : List ℚ) (m b : ℚ)
    (h : nextStep steps m = some b) : b ∈ steps := by
  unfold nextStep at h
  cases hlast : steps.getLast? with
  | none => rw [hlast] at h; cases h
  | some dflt =>
    rw [hlast] at h
    cases hfind : steps.find? (fun s => decide (m ≤ s)) with
    | none =>
      rw [hfind] at h
      simp only [Option.getD_none, Option.some.injEq] at h
      subst h
      exact (List.mem_getLast?_eq_getLast hlast).elim (fun hne he => he ▸ List.getLast_mem hne)
    | some s =>
      rw [hfind] at h
      simp only [Option.getD_some, Option.some.injEq] at h
      exact h ▸ List.mem_of_find?_eq_some hfind

/-- A nonempty ladder always yields a bound. -/
theorem nextStep_isSome (steps : List ℚ) (hne : steps ≠ []) (m : ℚ) :
    ∃ b, nextStep steps m = some b := by
  unfold nextStep
  rw [List.getLast?_eq_getLast steps hne]
  exact ⟨_, rfl⟩

/-- Every ladder of `scale_config` is nonempty. -/
theorem scale_config_ne_nil (pt : String) (steps : List ℚ)
    (h : scale_config pt = some steps) : steps ≠ [] := by
  unfold scale_config at h
  split_ifs at h
  all_goals
    first
      | exact Option.noConfusion h
      | (injection h with h2; subst h2; decide)

/-!  The C1 theorem below settles the axis-scaler step selection. -/

/-- C1. For every ascending step ladder and every non-negative
`max_data_value` `m`, the scaler picks the first step `≥ m`; in
particular: if `m ≤ s1` it picks the first step, if `m > sn` it falls
back to the last step, and otherwise it picks the unique step `s(i+1)`
with `si < m ≤ s(i+1)`. -/
theorem axis_scaler_first_step (steps : List ℚ) (hne : steps ≠ [])
    (hsort : steps.Sorted (· < ·)) (m : ℚ) (hm : 0 ≤ m) :
    (m ≤ steps.head hne → nextStep steps m = some (steps.head hne)) ∧
    (steps.getLast hne < m → nextStep steps m = some (steps.getLast hne)) ∧
    ∀ i (h1 : i + 1 < steps.length),
      steps.get ⟨i, Nat.lt_of_succ_lt h1⟩ < m → m ≤ steps.get ⟨i + 1, h1⟩ →
      nextStep steps m = some (steps.get ⟨i + 1, h1⟩) := by
  have hlast : steps.getLast? = some (steps.getLast hne) :=
    List.getLast?_eq_getLast _ hne
  refine ⟨?_, ?_, ?_⟩
  · intro hm1
    cases steps with
    | nil => exact absurd rfl hne
    | cons a t =>
      unfold nextStep
      rw [List.getLast?_eq_getLast _ (by simp)]
      rw [List.find?_cons_of_pos _ (by simpa using hm1)]
      rfl
  · intro hgt
    unfold nextStep
    rw [hlast]
    have hnone : steps.find? (fun s => decide (m ≤ s)) = none := by
      apply List.find?_eq_none.mpr
      intro x hx
      simp only [decide_eq_true_eq, not_le]
      exact lt_of_le_of_lt (sorted_le_getLast steps hne hsort x hx) hgt
    rw [hnone]
    rfl
  · intro i h1 hlt hle
    have hbefore : ∀ j (hj : j < i + 1),
        (fun s => decide (m ≤ s)) (steps.get ⟨j, hj.trans h1⟩) = false := by
      intro j hj
      have hji : j ≤ i := Nat.lt_succ_iff.mp hj
      have hge : steps.get ⟨j, hj.trans h1⟩ ≤ steps.get ⟨i, Nat.lt_of_succ_lt h1⟩ := by
        rcases Nat.lt_or_ge j i with hji2 | hij
        · exact le_of_lt (List.pairwise_iff_get.mp hsort _ _ hji2)
        · have : j = i := Nat.le_antisymm hji hij
          subst this
          exact le_rfl
      simp only [decide_eq_false_iff_not, not_le]
      exact lt_of_le_of_lt hge hlt
    have hfind := find?_eq_some_get (fun s => decide (m ≤ s)) steps (i + 1) h1
      hbefore (by simpa using hle)
    unfold nextStep
    rw [hlast, hfind]
    rfl

/-- Concrete check of C1: with the power ladder and a max of 30, the
scaler picks 50 (the step after 20, since 20 < 30 ≤ 50). -/
theorem axis_scaler_first_step_witness :
    nextStep [5, 20, 50, 160] (30 : ℚ) = some 50 := by
  have h := axis_scaler_first_step [5, 20, 50, 160] (by decide) (by decide) 30 (by decide)
  have h3 := h.2.2 1 (by decide) (by decide) (by decide)
  simpa using h3

/-- Characterization of the per-panel loop: the drawn lines are exactly
the present columns in request order, the final max folds the present
columns only, and the warnings are exactly the absent columns in
request order. -/
theorem panelLoop_eq (df : DataFrame) :
    ∀ (items : List (String × String × String)) (a : ℚ),
      panelLoop df items a =
        ((items.filter (fun t => df.columns.contains t.1)).map (mkLine df),
         presentMax df a
           ((items.filter (fun t => df.columns.contains t.1)).map (fun t => t.1)),
         (items.filter (fun t => !df.columns.contains t.1)).map (fun t => warnMsg t.1))
  | [], a => rfl
  | t :: rest, a => by
    by_cases hp : df.columns.contains t.1
    · simp only [panelLoop, hp, if_true, panelLoop_eq df rest, List.filter_cons,
        Bool.not_true, List.map_cons]
      simp [presentMax]
    · simp only [panelLoop, hp, if_false, panelLoop_eq df rest, List.filter_cons,
        Bool.not_false, List.map_cons]
      simp [hp]

/-- C2. A panel in which no requested column is present draws no line,
keeps `max_data_value = 0`, and for any measurement type with a ladder
the scaler then returns the ladder's smallest (first) step. -/
theorem empty_panel_smallest_step (df : DataFrame)
    (items : List (String × String × String))
    (habs : ∀ t ∈ items, df.columns.contains t.1 = false) :
    (panelLoop df items 0).1 = [] ∧ (panelLoop df items 0).2.1 = 0 ∧
    ∀ pt steps, scale_config pt = some steps →
      nextStep steps (panelLoop df items 0).2.1 = steps.head? := by
  have hfilter : items.filter (fun t => df.columns.contains t.1) = [] := by
    apply List.filter_eq_nil_iff.mpr
    intro t ht
    simpa using habs t ht
  have hchar := panelLoop_eq df items 0
  rw [hfilter] at hchar
  have hmax : (panelLoop df items 0).2.1 = 0 := by rw [hchar]; rfl
  refine ⟨by rw [hchar]; rfl, hmax, ?_⟩
  intro pt steps hsc
  rw [hmax]
  unfold scale_config at hsc
  split_ifs at hsc
  all_goals
    first
      | exact Option.noConfusion hsc
      | (injection hsc with h2; subst h2; decide)

/-- Concrete check of C2: requesting only `main_power` against a log
holding only `vin_power` draws nothing and the power panel's bound is 5. -/
theorem empty_panel_smallest_step_witness :
    (panelLoop ⟨[(0, "KST")], [("vin_power", [3])]⟩
        [("main_power", "MAIN", "green")] 0).1 = [] ∧
    nextStep [5, 20, 50, 160]
      (panelLoop ⟨[(0, "KST")], [("vin_power", [3])]⟩
        [("main_power", "MAIN", "green")] 0).2.1 = some 5 := by
  have h := empty_panel_smallest_step ⟨[(0, "KST")], [("vin_power", [3])]⟩
    [("main_power", "MAIN", "green")] (by decide)
  exact ⟨h.1, (h.2.2 "power" [5, 20, 50, 160] rfl).trans rfl⟩

/-- C3. Column absence is tolerated: the loop draws exactly the present
columns, folds the max over the present columns only, and emits one
warning per absent column; in particular every absent requested column
yields its warning and no drawn line, and the loop (hence the panel)
still succeeds with the remaining channels. -/
theorem absent_column_tolerance (df : DataFrame)
    (items : List (String × String × String)) (a : ℚ) :
    panelLoop df items a =
      ((items.filter (fun t => df.columns.contains t.1)).map (mkLine df),
       presentMax df a
         ((items.filter (fun t => df.columns.contains t.1)).map (fun t => t.1)),
       (items.filter (fun t => !df.columns.contains t.1)).map (fun t => warnMsg t.1)) ∧
    ∀ t ∈ items, df.columns.contains t.1 = false →
      warnMsg t.1 ∈ (panelLoop df items a).2.2 ∧
      ∀ l ∈ (panelLoop df items a).1, l.col ≠ t.1 := by
  refine ⟨panelLoop_eq df items a, ?_⟩
  intro t ht habs
  rw [panelLoop_eq df items a]
  constructor
  · exact List.mem_map_of_mem _ (List.mem_filter.mpr ⟨ht, by simpa using habs⟩)
  · intro l hl
    rcases List.mem_map.mp hl with ⟨u, hu, rfl⟩
    have hpres := (List.mem_filter.mp hu).2
    intro hcol
    rw [show (mkLine df u).col = u.1 from rfl] at hcol
    rw [hcol, habs] at hpres
    cases hpres

/-- Concrete check of C3: with `vin_power` present and `main_power`
absent, the absent column warns and only `vin_power` is drawn. -/
theorem absent_column_tolerance_witness :
    warnMsg "main_power" ∈
      (panelLoop ⟨[(0, "KST")], [("vin_power", [3])]⟩
        [("vin_power", "VIN", "red"), ("main_power", "MAIN", "green")] 0).2.2 := by
  have h := absent_column_tolerance ⟨[(0, "KST")], [("vin_power", [3])]⟩
    [("vin_power", "VIN", "red"), ("main_power", "MAIN", "green")] 0
  exact (h.2 ("main_power", "MAIN", "green") (by decide) (by decide)).1

/-- Labels of the present items of a zipped request list, by induction. -/
theorem zip_filter_labels (df : DataFrame) (suffix : String) :
    ∀ (sources colors : List String), colors.length = sources.length →
      ((zipItems (sources.map (fun s => s ++ suffix)) (sources.map upper) colors).filter
          (fun t => df.columns.contains t.1)).map (fun t => t.2.1)
        = (sources.filter (fun s => df.columns.contains (s ++ suffix))).map upper
  | [], [], _ => rfl
  | [], _ :: _, h => by cases h
  | _ :: _, [], h => by cases h
  | s :: rest, c :: cs, h => by
    have ih := zip_filter_labels df suffix rest cs (by simpa using h)
    by_cases hp : df.columns.contains (s ++ suffix)
    · simp only [List.map_cons, zipItems, List.filter_cons, hp, if_true, ih]
    · simp only [List.map_cons, zipItems, List.filter_cons, hp]
      simpa using ih

/-- C4. Order preservation: the labels of the drawn lines are exactly
the uppercased requested sources whose column is present, in the
caller-given order. -/
theorem source_order_preserved (df : DataFrame) (suffix : String)
    (sources colors : List String) (h : colors.length = sources.length) :
    ((panelLoop df
        (zipItems (sources.map (fun s => s ++ suffix)) (sources.map upper) colors)
        0).1).map Line.label
      = (sources.filter (fun s => df.columns.contains (s ++ suffix))).map upper := by
  rw [panelLoop_eq]
  have hz := zip_filter_labels df suffix sources colors h
  simpa [List.map_map, mkLine, Function.comp] using hz

/-- Concrete check of C4: requesting `[usb, vin]` (both present) yields
legend order `[USB, VIN]`. -/
theorem source_order_preserved_witness :
    ((panelLoop ⟨[(0, "KST")], [("vin_power", [3]), ("usb_power", [1])]⟩
        (zipItems (["usb", "vin"].map (fun s => s ++ "_power"))
          (["usb", "vin"].map upper) ["blue", "red"])
        0).1).map Line.label = ["USB", "VIN"] := by
  have h := source_order_preserved ⟨[(0, "KST")], [("vin_power", [3]), ("usb_power", [1])]⟩
    "_power" ["usb", "vin"] ["blue", "red"] (by decide)
  rw [h]
  rfl

/-- Every line of the loop is drawn against the frame's timestamp
column. -/
theorem panelLoop_xs (df : DataFrame) (items : List (String × String × String))
    (a : ℚ) : ∀ l ∈ (panelLoop df items a).1, l.xs = df.timestamps := by
  intro l hl
  rw [panelLoop_eq] at hl
  rcases List.mem_map.mp hl with ⟨t, _, rfl⟩
  rfl

/-- Color lookup succeeds on a list of known sources. -/
theorem lookupColors_ok : ∀ (srcs : List String),
    (∀ s ∈ srcs, (color_map s).isSome) →
    ∃ cs, lookupColors srcs = .ok cs ∧ cs.length = srcs.length
  | [], _ => ⟨[], rfl, rfl⟩
  | s :: rest, h => by
    have hs := h s (List.mem_cons_self s rest)
    cases hcm : color_map s with
    | none => rw [hcm] at hs; cases hs
    | some c =>
      obtain ⟨cs, hcs, hlen⟩ :=
        lookupColors_ok rest (fun x hx => h x (List.mem_cons_of_mem _ hx))
      exact ⟨c :: cs, by simp [lookupColors, hcm, hcs, Except.map], by simp [hlen]⟩

/-- Color lookup raises `KeyError` when some requested source is
unknown. -/
theorem lookupColors_err : ∀ (srcs : List String),
    (∃ s ∈ srcs, color_map s = none) →
    ∃ k, lookupColors srcs = .error (.keyError k) ∧ color_map k = none
  | [], h => by rcases h with ⟨s, hs, _⟩; cases hs
  | s :: rest, h => by
    cases hcm : color_map s with
    | none => exact ⟨s, by simp [lookupColors, hcm], hcm⟩
    | some c =>
      rcases h with ⟨x, hx, hxn⟩
      rcases List.mem_cons.mp hx with rfl | hxr
      · rw [hcm] at hxn; cases hxn
      · obtain ⟨k, hk, hkn⟩ := lookupColors_err rest ⟨x, hxr, hxn⟩
        exact ⟨k, by simp [lookupColors, hcm, hk, Except.map], hkn⟩

/-- The scaling step never fails: every configured ladder is nonempty
and a type without a ladder keeps auto-scaling. -/
theorem panelTop_ok (pt : String) (maxv : ℚ) :
    ∃ t, panelTop pt maxv = .ok t ∧
      ∀ steps, scale_config pt = some steps → ∃ b, t = some b ∧ b ∈ steps := by
  cases hsc : scale_config pt with
  | none =>
    refine ⟨none, ?_, ?_⟩
    · simp only [panelTop, hsc]
    · intro steps hsteps
      cases hsteps
  | some steps =>
    obtain ⟨b, hb⟩ := nextStep_isSome steps (scale_config_ne_nil pt steps hsc) maxv
    refine ⟨some b, ?_, ?_⟩
    · simp only [panelTop, hsc, hb]
    · intro steps' hsteps'
      injection hsteps' with h2
      subst h2
      exact ⟨b, rfl, nextStep_mem _ maxv b hb⟩

/-- The panel loop succeeds when every requested type is known. -/
theorem buildPanels_ok (df : DataFrame) (sources labels colors : List String) :
    ∀ (types : List String),
      (∀ t ∈ types, (plot_configs sources t).isSome) →
      ∃ pw, buildPanels df sources labels colors types = .ok pw
  | [], _ => ⟨([], []), rfl⟩
  | pt :: rest, h => by
    cases hcfg : plot_configs sources pt with
    | none =>
      have := h pt (List.mem_cons_self pt rest)
      rw [hcfg] at this
      cases this
    | some cfg =>
      obtain ⟨pw, hpw⟩ := buildPanels_ok df sources labels colors rest
        (fun t ht => h t (List.mem_cons_of_mem _ ht))
      obtain ⟨t, ht, _⟩ :=
        panelTop_ok pt (panelLoop df (zipItems cfg.cols labels colors) 0).2.1
      refine ⟨(mkPanel pt cfg (panelLoop df (zipItems cfg.cols labels colors) 0) t :: pw.1,
        (panelLoop df (zipItems cfg.cols labels colors) 0).2.2 ++ pw.2), ?_⟩
      simp only [buildPanels, hcfg, ht, hpw]

/-- The panel loop raises `KeyError` when some requested type is
unknown. -/
theorem buildPanels_err_type (df : DataFrame) (sources labels colors : List String) :
    ∀ (types : List String),
      (∃ t ∈ types, plot_configs sources t = none) →
      ∃ k, buildPanels df sources labels colors types = .error (.keyError k) ∧
        plot_configs sources k = none
  | [], h => by rcases h with ⟨t, ht, _⟩; cases ht
  | pt :: rest, h => by
    cases hcfg : plot_configs sources pt with
    | none => exact ⟨pt, by simp only [buildPanels, hcfg], hcfg⟩
    | some cfg =>
      rcases h with ⟨t, ht, htn⟩
      rcases List.mem_cons.mp ht with rfl | htr
      · rw [hcfg] at htn; cases htn
      · obtain ⟨k, hk, hkn⟩ :=
          buildPanels_err_type df sources labels colors rest ⟨t, htr, htn⟩
        obtain ⟨tp, htp, _⟩ :=
          panelTop_ok pt (panelLoop df (zipItems cfg.cols labels colors) 0).2.1
        exact ⟨k, by simp only [buildPanels, hcfg, htp, hk], hkn⟩

/-- Structural facts about every produced panel: the bottom y-limit is
0, a type with a ladder gets a top y-limit from the ladder, and every
drawn line reads the frame's timestamp column. -/
theorem buildPanels_panels (df : DataFrame) (sources labels colors : List String) :
    ∀ (types : List String) (pw : List Panel × List String),
      buildPanels df sources labels colors types = .ok pw →
      ∀ p ∈ pw.1, p.ylim_bottom = 0 ∧
        (∀ steps, scale_config p.plot_type = some steps →
          ∃ b, p.ylim_top = some b ∧ b ∈ steps) ∧
        ∀ l ∈ p.lines, l.xs = df.timestamps
  | [], pw, h => by
    simp only [buildPanels] at h
    injection h with h2
    subst h2
    intro p hp
    cases hp
  | pt :: rest, pw, h => by
    simp only [buildPanels] at h
    cases hcfg : plot_configs sources pt with
    | none => rw [hcfg] at h; cases h
    | some cfg =>
      simp only [hcfg] at h
      obtain ⟨tp, htp, htp2⟩ :=
        panelTop_ok pt (panelLoop df (zipItems cfg.cols labels colors) 0).2.1
      simp only [htp] at h
      cases hrest : buildPanels df sources labels colors rest with
      | error e =>
        simp only [hrest] at h
        cases h
      | ok pw' =>
        have hrec := buildPanels_panels df sources labels colors rest pw' hrest
        simp only [hrest] at h
        injection h with h2
        subst h2
        intro p hp
        rcases List.mem_cons.mp hp with rfl | hp2
        · refine ⟨rfl, ?_, panelLoop_xs df _ 0⟩
          intro steps hsteps
          have hpt : (mkPanel pt cfg (panelLoop df (zipItems cfg.cols labels colors) 0)
              tp).plot_type = pt := rfl
          rw [hpt] at hsteps
          obtain ⟨b, hb, hbmem⟩ := htp2 steps hsteps
          exact ⟨b, by rw [show (mkPanel pt cfg _ tp).ylim_top = tp from rfl, hb], hbmem⟩
        · exact hrec p hp2

/-- Case analysis of a non-raising run: either it returned early (no
panels, no axis formatting, nothing saved), or it went through the
whole pipeline and the result's frame, panels, formatter timezone and
save flag are as composed. -/
theorem run_ok_cases (env : Env) (ip op : String) (types sources : List String)
    (r : RunResult) (h : plot_power_data env ip op types sources = .ok r) :
    (r.panels = [] ∧ r.formatTz = none ∧ r.saved = false ∧
      (r.df = none ∨
        ∃ raw, env.file = .ok raw ∧ r.df = some (tz_convert env.localTz raw))) ∨
    (∃ raw colors pw, env.file = .ok raw ∧ lookupColors sources = .ok colors ∧
      buildPanels (tz_convert env.localTz raw) sources (sources.map upper) colors
        types = .ok pw ∧
      r.df = some (tz_convert env.localTz raw) ∧ r.panels = pw.1 ∧
      r.formatTz = some env.localTz ∧ r.saved = env.saveOk) := by
  cases hfile : env.file with
  | fileNotFound =>
    simp only [plot_power_data, hfile] at h
    injection h with h2
    subst h2
    exact Or.inl ⟨rfl, rfl, rfl, Or.inl rfl⟩
  | loadError e =>
    simp only [plot_power_data, hfile] at h
    injection h with h2
    subst h2
    exact Or.inl ⟨rfl, rfl, rfl, Or.inl rfl⟩
  | ok raw =>
    simp only [plot_power_data, hfile] at h
    cases hlc : lookupColors sources with
    | error e =>
      simp only [hlc] at h
      cases h
    | ok colors =>
      simp only [hlc] at h
      by_cases hlen : types.length = 0
      · rw [if_pos hlen] at h
        injection h with h2
        subst h2
        exact Or.inl ⟨rfl, rfl, rfl, Or.inr ⟨raw, rfl, rfl⟩⟩
      · rw [if_neg hlen] at h
        cases hbp : buildPanels (tz_convert env.localTz raw) sources
            (sources.map upper) colors types with
        | error e =>
          simp only [hbp] at h
          cases h
        | ok pw =>
          simp only [hbp] at h
          cases hL : (tz_convert env.localTz raw).timestamps.getLast? with
          | none =>
            simp only [hL] at h
            cases h
          | some tl =>
            cases hH : (tz_convert env.localTz raw).timestamps.head? with
            | none =>
              simp only [hL, hH] at h
              cases h
            | some th =>
              simp only [hL, hH] at h
              injection h with h2
              subst h2
              exact Or.inr ⟨raw, colors, pw, rfl, rfl, hbp, rfl, rfl, rfl, rfl⟩

/-- C5. Timezone consistency: in any non-raising run, every timestamp
of the frame the panels read carries the environment's resolved local
timezone, every drawn line's x-data carries it too, and whenever panels
were produced the x-axis formatter was given that same timezone. -/
theorem timezone_consistency (env : Env) (ip op : String)
    (types sources : List String) (r : RunResult)
    (h : plot_power_data env ip op types sources = .ok r) :
    (∀ dfc, r.df = some dfc → ∀ x ∈ dfc.timestamps, x.2 = env.localTz) ∧
    (∀ p ∈ r.panels, ∀ l ∈ p.lines, ∀ x ∈ l.xs, x.2 = env.localTz) ∧
    (r.panels ≠ [] → r.formatTz = some env.localTz) := by
  have hdf : ∀ raw dfc, tz_convert env.localTz raw = dfc →
      ∀ x ∈ dfc.timestamps, x.2 = env.localTz := by
    intro raw dfc hdfc x hx
    subst hdfc
    simp only [tz_convert] at hx
    rcases List.mem_map.mp hx with ⟨y, _, rfl⟩
    rfl
  rcases run_ok_cases env ip op types sources r h with
    ⟨hpan, hfmt, _, hdf0⟩ | ⟨raw, colors, pw, _, _, hbp, hdfr, hpan, hfmt, _⟩
  · refine ⟨?_, ?_, ?_⟩
    · intro dfc hdfc
      rcases hdf0 with hnone | ⟨raw, _, hsome⟩
      · rw [hnone] at hdfc; cases hdfc
      · rw [hsome] at hdfc
        injection hdfc with h3
        exact hdf raw dfc h3
    · intro p hp
      rw [hpan] at hp
      cases hp
    · intro hne
      exact absurd hpan hne
  · have hpanels := buildPanels_panels _ _ _ _ types pw hbp
    refine ⟨?_, ?_, fun _ => hfmt⟩
    · intro dfc hdfc
      rw [hdfr] at hdfc
      injection hdfc with h3
      exact hdf raw dfc h3
    · intro p hp l hl x hx
      rw [hpan] at hp
      have hxs := (hpanels p hp).2.2 l hl
      rw [hxs] at hx
      simp only [tz_convert] at hx
      rcases List.mem_map.mp hx with ⟨y, _, rfl⟩
      rfl

/-- Concrete check of C5: in the concrete successful run the formatter
timezone is the environment's resolved timezone. -/
theorem timezone_consistency_witness : rLit.formatTz = some env2.localTz := by
  have h := timezone_consistency env2 "in.csv" "out.png" ["power"] ["vin"] rLit rfl
  exact h.2.2 (by decide)

/-- C6. Requesting zero measurement types is a no-op: provided the log
loads and the requested sources are known (the CLI only passes known
ones), the run returns normally with the "nothing to do" diagnostic,
saves no file and draws no panel. -/
theorem empty_types_noop (env : Env) (ip op : String) (sources : List String)
    (raw : DataFrame) (hf : env.file = .ok raw)
    (hs : ∀ s ∈ sources, (color_map s).isSome) :
    ∃ r, plot_power_data env ip op [] sources = .ok r ∧
      "No plot types selected. Exiting." ∈ r.messages ∧
      r.saved = false ∧ r.panels = [] := by
  obtain ⟨cs, hcs, _⟩ := lookupColors_ok sources hs
  have hrun : plot_power_data env ip op [] sources = .ok
      { messages :=
          ["Successfully loaded " ++ toString raw.timestamps.length ++
             " records from '" ++ ip ++ "'",
           "Timestamp converted to local timezone: " ++ env.localTz,
           "No plot types selected. Exiting."],
        df := some (tz_convert env.localTz raw), panels := [],
        formatTz := none, saved := false } := by
    simp only [plot_power_data, hf, hcs]
    rfl
  exact ⟨_, hrun, by simp, rfl, rfl⟩

/-- Concrete check of C6: zero requested types against the two-row log
gives the diagnostic and no saved file. -/
theorem empty_types_noop_witness :
    ∃ r, plot_power_data env2 "in.csv" "out.png" [] ["vin"] = .ok r ∧
      "No plot types selected. Exiting." ∈ r.messages ∧
      r.saved = false ∧ r.panels = [] :=
  empty_types_noop env2 "in.csv" "out.png" ["vin"] raw2 rfl (by decide)

/-- C7. Load failure aborts the run: a missing input path yields the
diagnostic naming the path, no frame, no panels and no saved output;
any other read failure yields the generic read-error diagnostic with
the same abort-and-no-output behavior. Neither raises. -/
theorem load_failure_aborts (env : Env) (ip op : String)
    (types sources : List String) :
    (env.file = .fileNotFound →
      plot_power_data env ip op types sources = .ok
        { messages := ["Error: The file '" ++ ip ++ "' was not found."],
          df := none, panels := [], formatTz := none, saved := false }) ∧
    (∀ e, env.file = .loadError e →
      plot_power_data env ip op types sources = .ok
        { messages := ["An error occurred while reading the CSV file: " ++ e],
          df := none, panels := [], formatTz := none, saved := false }) := by
  constructor
  · intro h
    simp only [plot_power_data, h]
  · intro e h
    simp only [plot_power_data, h]

/-- Concrete check of C7: a nonexistent `missing.csv` aborts with the
path named in the diagnostic and nothing saved. -/
theorem load_failure_aborts_witness :
    plot_power_data envNF "missing.csv" "out.png" ["power"] ["vin"] = .ok
      { messages := ["Error: The file 'missing.csv' was not found."],
        df := none, panels := [], formatTz := none, saved := false } :=
  (load_failure_aborts envNF "missing.csv" "out.png" ["power"] ["vin"]).1 rfl

/-- The color table is defined exactly on the three known sources. -/
theorem color_map_isSome_iff (s : String) :
    (color_map s).isSome ↔ s ∈ ["vin", "main", "usb"] := by
  unfold color_map
  split_ifs <;> simp_all

/-- The plot-config table is defined exactly on the three known types. -/
theorem plot_configs_isSome_iff (sources : List String) (t : String) :
    (plot_configs sources t).isSome ↔ t ∈ ["power", "voltage", "current"] := by
  unfold plot_configs
  split_ifs <;> simp_all

/-- Completed-run equation: once loading, color lookup and the panel
loop succeed and the frame has first and last rows, the run returns the
composed result. -/
theorem run_ok_of_valid (env : Env) (ip op : String)
    (types sources : List String) (raw : DataFrame) (cs : List String)
    (pw : List Panel × List String) (tl th : Int × String)
    (hf : env.file = .ok raw) (hcs : lookupColors sources = .ok cs)
    (hlen : types.length ≠ 0)
    (hbp : buildPanels (tz_convert env.localTz raw) sources
      (sources.map upper) cs types = .ok pw)
    (hL : (tz_convert env.localTz raw).timestamps.getLast? = some tl)
    (hH : (tz_convert env.localTz raw).timestamps.head? = some th) :
    plot_power_data env ip op types sources = .ok
      { messages :=
          ["Successfully loaded " ++ toString raw.timestamps.length ++
             " records from '" ++ ip ++ "'",
           "Timestamp converted to local timezone: " ++ env.localTz] ++ pw.2 ++
          [if env.saveOk then "Plot successfully saved to '" ++ op ++ "'"
           else "An error occurred while saving the plot: " ++ env.saveErr],
        df := some (tz_convert env.localTz raw), panels := pw.1,
        formatTz := some env.localTz, saved := env.saveOk } := by
  simp only [plot_power_data, hf, hcs]
  rw [if_neg hlen]
  simp only [hbp, hL, hH]

/-- A run that reaches axis formatting with no last row raises
`IndexError`. -/
theorem run_indexError_of_empty (env : Env) (ip op : String)
    (types sources : List String) (raw : DataFrame) (cs : List String)
    (pw : List Panel × List String)
    (hf : env.file = .ok raw) (hcs : lookupColors sources = .ok cs)
    (hlen : types.length ≠ 0)
    (hbp : buildPanels (tz_convert env.localTz raw) sources
      (sources.map upper) cs types = .ok pw)
    (hL : (tz_convert env.localTz raw).timestamps.getLast? = none) :
    plot_power_data env ip op types sources = .error .indexError := by
  simp only [plot_power_data, hf, hcs]
  rw [if_neg hlen]
  simp only [hbp, hL]

/-- A run that reaches axis formatting with no first row raises
`IndexError`. -/
theorem run_indexError_of_no_head (env : Env) (ip op : String)
    (types sources : List String) (raw : DataFrame) (cs : List String)
    (pw : List Panel × List String) (tl : Int × String)
    (hf : env.file = .ok raw) (hcs : lookupColors sources = .ok cs)
    (hlen : types.length ≠ 0)
    (hbp : buildPanels (tz_convert env.localTz raw) sources
      (sources.map upper) cs types = .ok pw)
    (hL : (tz_convert env.localTz raw).timestamps.getLast? = some tl)
    (hH : (tz_convert env.localTz raw).timestamps.head? = none) :
    plot_power_data env ip op types sources = .error .indexError := by
  simp only [plot_power_data, hf, hcs]
  rw [if_neg hlen]
  simp only [hbp, hL, hH]

/-- A run with zero requested types returns the no-op result after
loading. -/
theorem run_noop_of_no_types (env : Env) (ip op : String)
    (sources : List String) (raw : DataFrame) (cs : List String)
    (hf : env.file = .ok raw) (hcs : lookupColors sources = .ok cs)
    (types : List String) (hlen : types.length = 0) :
    plot_power_data env ip op types sources = .ok
      { messages :=
          ["Successfully loaded " ++ toString raw.timestamps.length ++
             " records from '" ++ ip ++ "'",
           "Timestamp converted to local timezone: " ++ env.localTz] ++
          ["No plot types selected. Exiting."],
        df := some (tz_convert env.localTz raw), panels := [],
        formatTz := none, saved := false } := by
  simp only [plot_power_data, hf, hcs]
  rw [if_pos hlen]

/-- C8. The fixed-table lookups are total exactly on the known sources
and types: the color and plot-config tables are defined precisely on
`{vin, main, usb}` and `{power, voltage, current}`; once the log has
loaded, an unknown requested source or type makes the run raise a
`KeyError` (not a handled diagnostic); and under the precondition the
run never raises a `KeyError`. -/
theorem key_lookup_precondition :
    (∀ s, (color_map s).isSome ↔ s ∈ ["vin", "main", "usb"]) ∧
    (∀ sources t, (plot_configs sources t).isSome ↔
      t ∈ ["power", "voltage", "current"]) ∧
    (∀ (env : Env) (ip op : String) (types sources : List String) (raw : DataFrame),
      env.file = .ok raw → (∃ s ∈ sources, color_map s = none) →
      ∃ k, plot_power_data env ip op types sources = .error (.keyError k)) ∧
    (∀ (env : Env) (ip op : String) (types sources : List String) (raw : DataFrame),
      env.file = .ok raw → (∀ s ∈ sources, (color_map s).isSome) →
      (∃ t ∈ types, plot_configs sources t = none) →
      ∃ k, plot_power_data env ip op types sources = .error (.keyError k)) ∧
    (∀ (env : Env) (ip op : String) (types sources : List String),
      (∀ s ∈ sources, s ∈ ["vin", "main", "usb"]) →
      (∀ t ∈ types, t ∈ ["power", "voltage", "current"]) →
      ∀ k, plot_power_data env ip op types sources ≠ .error (.keyError k)) := by
  refine ⟨color_map_isSome_iff, plot_configs_isSome_iff, ?_, ?_, ?_⟩
  · intro env ip op types sources raw hf hbad
    obtain ⟨k, hk, _⟩ := lookupColors_err sources hbad
    refine ⟨k, ?_⟩
    simp only [plot_power_data, hf, hk]
  · intro env ip op types sources raw hf hgood hbad
    obtain ⟨cs, hcs, _⟩ := lookupColors_ok sources hgood
    obtain ⟨k, hbp, _⟩ := buildPanels_err_type (tz_convert env.localTz raw) sources
      (sources.map upper) cs types hbad
    have hlen : types.length ≠ 0 := by
      rcases hbad with ⟨t, ht, _⟩
      intro h0
      rw [List.length_eq_zero] at h0
      subst h0
      cases ht
    refine ⟨k, ?_⟩
    simp only [plot_power_data, hf, hcs]
    rw [if_neg hlen]
    simp only [hbp]
  · intro env ip op types sources hsrc htyp k
    cases hf : env.file with
    | fileNotFound => simp [plot_power_data, hf]
    | loadError e => simp [plot_power_data, hf]
    | ok raw =>
      have hgood : ∀ s ∈ sources, (color_map s).isSome :=
        fun s hs => (color_map_isSome_iff s).mpr (hsrc s hs)
      obtain ⟨cs, hcs, _⟩ := lookupColors_ok sources hgood
      by_cases hlen : types.length = 0
      · rw [run_noop_of_no_types env ip op sources raw cs hf hcs types hlen]
        intro hcontra
        cases hcontra
      · have hokp : ∀ t ∈ types, (plot_configs sources t).isSome :=
          fun t ht => (plot_configs_isSome_iff sources t).mpr (htyp t ht)
        obtain ⟨pw, hbp⟩ := buildPanels_ok (tz_convert env.localTz raw) sources
          (sources.map upper) cs types hokp
        cases hL : (tz_convert env.localTz raw).timestamps.getLast? with
        | none =>
          rw [run_indexError_of_empty env ip op types sources raw cs pw
            hf hcs hlen hbp hL]
          intro hcontra
          injection hcontra with h2
          exact PyError.noConfusion h2
        | some tl =>
          cases hH : (tz_convert env.localTz raw).timestamps.head? with
          | none =>
            rw [run_indexError_of_no_head env ip op types sources raw cs pw tl
              hf hcs hlen hbp hL hH]
            intro hcontra
            injection hcontra with h2
            exact PyError.noConfusion h2
          | some th =>
            rw [run_ok_of_valid env ip op types sources raw cs pw tl th
              hf hcs hlen hbp hL hH]
            intro hcontra
            cases hcontra

/-- Concrete check of C8: requesting the unknown source `bogus` raises
`KeyError` once the log has loaded. -/
theorem key_lookup_precondition_witness :
    ∃ k, plot_power_data env2 "in.csv" "out.png" ["power"] ["bogus"]
      = .error (.keyError k) := by
  have h := key_lookup_precondition
  exact h.2.2.1 env2 "in.csv" "out.png" ["power"] ["bogus"] raw2 rfl
    ⟨"bogus", by decide, rfl⟩

/-- C9. The composer needs at least one row when panels are drawn: with
known sources and types and at least one requested type, a zero-row log
makes the run raise `IndexError` (reading the last timestamp for the
axis labels), while a log with rows completes without raising. -/
theorem nonempty_rows_precondition :
    (∀ (env : Env) (ip op : String) (types sources : List String) (raw : DataFrame),
      env.file = .ok raw → raw.timestamps = [] → types ≠ [] →
      (∀ s ∈ sources, s ∈ ["vin", "main", "usb"]) →
      (∀ t ∈ types, t ∈ ["power", "voltage", "current"]) →
      plot_power_data env ip op types sources = .error .indexError) ∧
    (∀ (env : Env) (ip op : String) (types sources : List String) (raw : DataFrame),
      env.file = .ok raw → raw.timestamps ≠ [] →
      (∀ s ∈ sources, s ∈ ["vin", "main", "usb"]) →
      (∀ t ∈ types, t ∈ ["power", "voltage", "current"]) →
      ∃ r, plot_power_data env ip op types sources = .ok r) := by
  constructor
  · intro env ip op types sources raw hf hrows htne hsrc htyp
    have hgood : ∀ s ∈ sources, (color_map s).isSome :=
      fun s hs => (color_map_isSome_iff s).mpr (hsrc s hs)
    obtain ⟨cs, hcs, _⟩ := lookupColors_ok sources hgood
    have hokp : ∀ t ∈ types, (plot_configs sources t).isSome :=
      fun t ht => (plot_configs_isSome_iff sources t).mpr (htyp t ht)
    obtain ⟨pw, hbp⟩ := buildPanels_ok (tz_convert env.localTz raw) sources
      (sources.map upper) cs types hokp
    have hlen : types.length ≠ 0 := by
      intro h0
      rw [List.length_eq_zero] at h0
      exact htne h0
    have hL : (tz_convert env.localTz raw).timestamps.getLast? = none := by
      simp [tz_convert, hrows]
    simp only [plot_power_data, hf, hcs]
    rw [if_neg hlen]
    simp only [hbp, hL]
  · intro env ip op types sources raw hf hrows hsrc htyp
    have hgood : ∀ s ∈ sources, (color_map s).isSome :=
      fun s hs => (color_map_isSome_iff s).mpr (hsrc s hs)
    obtain ⟨cs, hcs, _⟩ := lookupColors_ok sources hgood
    by_cases hlen : types.length = 0
    · exact ⟨_, run_noop_of_no_types env ip op sources raw cs hf hcs types hlen⟩
    · have hokp : ∀ t ∈ types, (plot_configs sources t).isSome :=
        fun t ht => (plot_configs_isSome_iff sources t).mpr (htyp t ht)
      obtain ⟨pw, hbp⟩ := buildPanels_ok (tz_convert env.localTz raw) sources
        (sources.map upper) cs types hokp
      have htzne : (tz_convert env.localTz raw).timestamps ≠ [] := by
        simp [tz_convert, hrows]
      exact ⟨_, run_ok_of_valid env ip op types sources raw cs pw _ _
        hf hcs hlen hbp (List.getLast?_eq_getLast _ htzne)
        (List.head?_eq_head htzne)⟩

/-- Concrete check of C9: a zero-row log with one requested panel makes
the run raise `IndexError`. -/
theorem nonempty_rows_precondition_witness :
    plot_power_data envEmpty "in.csv" "out.png" ["power"] ["vin"]
      = .error .indexError :=
  nonempty_rows_precondition.1 envEmpty "in.csv" "out.png" ["power"] ["vin"]
    rawEmpty rfl rfl (by decide) (by decide) (by decide)

/-- C10. For every produced panel of a type with a step ladder the top
y-limit is an element of that ladder and the bottom y-limit is 0. -/
theorem ylim_from_ladder (env : Env) (ip op : String)
    (types sources : List String) (r : RunResult)
    (h : plot_power_data env ip op types sources = .ok r) :
    ∀ p ∈ r.panels, p.ylim_bottom = 0 ∧
      ∀ steps, scale_config p.plot_type = some steps →
        ∃ b, p.ylim_top = some b ∧ b ∈ steps := by
  rcases run_ok_cases env ip op types sources r h with
    ⟨hpan, _, _, _⟩ | ⟨raw, colors, pw, _, _, hbp, _, hpan, _, _⟩
  · rw [hpan]
    intro p hp
    cases hp
  · rw [hpan]
    intro p hp
    have hprop := buildPanels_panels _ _ _ _ types pw hbp p hp
    exact ⟨hprop.1, hprop.2.1⟩

/-- Concrete check of C10: in the concrete run's power panel the top
y-limit is a ladder element and the bottom is 0. -/
theorem ylim_from_ladder_witness :
    ∃ b, pLit.ylim_top = some b ∧ b ∈ ([5, 20, 50, 160] : List ℚ) := by
  have h := ylim_from_ladder env2 "in.csv" "out.png" ["power"] ["vin"] rLit rfl
  exact (h pLit (by decide)).2 [5, 20, 50, 160] rfl

end Csv2Plot
